import Mathlib

/-!
Shallow embedding of the badminton scheduler server (src/server/src/index.ts)
together with the Prisma data model (the SQL migration).  Ratings are modelled
as rationals, timestamps and row ids as naturals, and the database as explicit
lists of rows threaded through every operation.  `Math.random() < 0.2` is
modelled by an oracle of booleans indexed by loop iteration, and
`Math.pow(10, x)` by an abstract function parameter `tenPow`.
-/

deriving instance DecidableEq for Except

namespace Scheduler

/-- A row of the `User` table: only the fields the engine reads. -/
structure User where
  id : Nat
  rating : Rat
  deriving DecidableEq

/-- The `MatchStatus` enum of the Prisma schema. -/
inductive MatchStatus
  | SCHEDULED
  | ONGOING
  | FINISHED
  deriving DecidableEq

/-- A row of the `Session` table. -/
structure Session where
  id : Nat
  courts : Nat
  isActive : Bool
  deriving DecidableEq

/-- A row of the `Match` table.  `winnerTeam` is an INTEGER column (the
migration, line 35), so only integers are storable; the Prisma client rejects
a non-integer write to it. -/
structure Match where
  id : Nat
  sessionId : Nat
  court : Nat
  status : MatchStatus
  p1Id : Nat
  p2Id : Nat
  p3Id : Nat
  p4Id : Nat
  winnerTeam : Option Int
  startedAt : Option Nat
  endedAt : Option Nat
  deriving DecidableEq

/-- A row of the `WaitingQueueEntry` table. -/
structure WaitingQueueEntry where
  sessionId : Nat
  userId : Nat
  position : Nat
  joinedAt : Nat
  deriving DecidableEq

/-- A row of the `RatingHistory` table. -/
structure RatingHistory where
  userId : Nat
  change : Rat
  rating : Rat
  matchId : Nat
  deriving DecidableEq

/-- The whole database state. -/
structure DB where
  users : List User
  sessions : List Session
  «matches» : List Match
  queue : List WaitingQueueEntry
  history : List RatingHistory
  deriving DecidableEq

/-- The error outcomes the endpoints can produce.  `intWriteRejected` models
the Prisma client refusing a non-integer value written to the INTEGER
`winnerTeam` column: the handler has no try/catch there, so the request dies
after the rating transaction and the history rows have been committed, and
the constructor carries the database state at the moment of the throw. -/
inductive ApiError
  | validationError
  | matchNotFound
  | sessionNotFound
  | invalidSession
  | intWriteRejected (state : DB)
  deriving DecidableEq

/-- `expectedScore` from index.ts line 36: `1 / (1 + Math.pow(10, (ratingB - ratingA) / 400))`.
`tenPow` abstracts `Math.pow(10, ·)`. -/
def expectedScore (tenPow : Rat → Rat) (ratingA ratingB : Rat) : Rat :=
  1 / (1 + tenPow ((ratingB - ratingA) / 400))

/-- `eloUpdate` from index.ts line 39: `current + k * (score - expected)`. -/
def eloUpdate (current expected score k : Rat) : Rat :=
  current + k * (score - expected)

/-- `averageTeamRating` from index.ts line 42. -/
def averageTeamRating (a b : Rat) : Rat := (a + b) / 2

/-- `prisma.user.findUnique`-style lookup by id. -/
def findUser (db : DB) (uid : Nat) : Option User :=
  db.users.find? (fun u => u.id == uid)

/-- The current rating stored for a user id (0 if absent). -/
def ratingOf (db : DB) (uid : Nat) : Rat :=
  ((findUser db uid).map User.rating).getD 0

/-- `prisma.user.update where id` setting the rating column. -/
def setRating (users : List User) (uid : Nat) (r : Rat) : List User :=
  users.map (fun u => if u.id == uid then { u with rating := r } else u)

/-- Boolean membership of a natural number in a list, modelling the
`userId: { in: ... }` filter and the `Set` of used courts. -/
def memB (x : Nat) : List Nat → Bool
  | [] => false
  | y :: l => x == y || memB x l

/-- A match counts against court capacity iff it is SCHEDULED or ONGOING
(the `status: { in: [SCHEDULED, ONGOING] }` filter). -/
def nonFinished (m : Match) : Bool :=
  m.status == MatchStatus.SCHEDULED || m.status == MatchStatus.ONGOING

/-- `inUse` from index.ts line 48: count of SCHEDULED or ONGOING matches of the session. -/
def inUseOf (db : DB) (sessionId : Nat) : Nat :=
  (db.matches.filter (fun m => m.sessionId == sessionId && nonFinished m)).length

/-- `availableCourts` from index.ts line 49: `Math.max(0, session.courts - inUse)`
(truncated subtraction on naturals is exactly that), 0 if the session is absent. -/
def availOf (db : DB) (sessionId : Nat) : Nat :=
  ((db.sessions.find? (fun s => s.id == sessionId)).map
    (fun s => s.courts - inUseOf db sessionId)).getD 0

/-- The arrival order on queue entries: `orderBy: [{ position: asc }, { joinedAt: asc }]`. -/
def entryOrder (a b : WaitingQueueEntry) : Prop :=
  a.position < b.position ∨ (a.position = b.position ∧ a.joinedAt ≤ b.joinedAt)

instance : DecidableRel entryOrder := fun a b =>
  decidable_of_iff
    (a.position < b.position ∨ (a.position = b.position ∧ a.joinedAt ≤ b.joinedAt)) Iff.rfl

/-- Ascending-rating comparison, modelling `players.sort((a, b) => a.rating - b.rating)`. -/
def ratingOrder (a b : User) : Prop := a.rating ≤ b.rating

instance : DecidableRel ratingOrder := fun a b =>
  decidable_of_iff (a.rating ≤ b.rating) Iff.rfl

instance : IsTotal User ratingOrder := ⟨fun a b => le_total a.rating b.rating⟩

instance : IsTrans User ratingOrder := ⟨fun _ _ _ h1 h2 => le_trans h1 h2⟩

/-- The session's waiting queue in arrival order (index.ts lines 52-56). -/
def queueOrdered (db : DB) (sessionId : Nat) : List WaitingQueueEntry :=
  List.insertionSort entryOrder (db.queue.filter (fun e => e.sessionId == sessionId))

/-- `queue.map(q => q.user)`: the joined `User` rows of the waiting queue;
the foreign key guarantees every entry resolves. -/
def waitingPlayers (db : DB) (sessionId : Nat) : List User :=
  (queueOrdered db sessionId).filterMap (fun e => findUser db e.userId)

/-- The matching order of index.ts line 59: the waiting players re-sorted by
rating ascending (JavaScript array sort is stable, as is insertion sort). -/
def matchingOrder (db : DB) (sessionId : Nat) : List User :=
  List.insertionSort ratingOrder (waitingPlayers db sessionId)

/-- `usedCourts` from index.ts line 61: the set of court numbers of the
session's SCHEDULED or ONGOING matches. -/
def usedCourts (db : DB) (sessionId : Nat) : List Nat :=
  ((db.matches.filter (fun m => m.sessionId == sessionId && nonFinished m)).map
    (fun m => m.court)).dedup

/-- The `while (usedCourts.has(court)) court++` scan, with enough fuel to
pass over every used court. -/
def scanFree (used : List Nat) : Nat → Nat → Nat
  | 0, c => c
  | fuel + 1, c => if memB c used then scanFree used fuel (c + 1) else c

/-- The probabilistic swap of index.ts lines 68-72: when the oracle says so and
a 5th player exists, the group's 4th player is exchanged with the next in line.
Returns the 4th member of the group and the rest of the list. -/
def applySwap (doSwap : Bool) (d : User) : List User → User × List User
  | [] => (d, [])
  | e :: rest => if doSwap then (e, d :: rest) else (d, e :: rest)

/-- The match-creation loop of index.ts lines 67-79.  `gi` indexes the swap
oracle, `avail` is the remaining court budget, `court` the current candidate
court (already scanned free), `nextId` the next fresh match row id, `ps` the
remaining rating-sorted players.  Returns the final database and the created
matches in creation order. -/
def genLoop (swapD : Nat → Bool) (sessionId : Nat) (used : List Nat) :
    Nat → Nat → Nat → Nat → List User → DB → DB × List Match
  | _, 0, _, _, _, db => (db, [])
  | gi, avail + 1, court, nextId, ps, db =>
    match ps with
    | a :: b :: c :: d :: rest =>
      let fr := applySwap (swapD gi) d rest
      let m : Match :=
        { id := nextId, sessionId := sessionId, court := court,
          status := MatchStatus.SCHEDULED,
          p1Id := a.id, p2Id := b.id, p3Id := c.id, p4Id := fr.1.id,
          winnerTeam := none, startedAt := none, endedAt := none }
      let db' : DB :=
        { db with
          «matches» := db.matches ++ [m],
          queue := db.queue.filter (fun e =>
            !(e.sessionId == sessionId && memB e.userId [a.id, b.id, c.id, fr.1.id])) }
      let next := genLoop swapD sessionId used (gi + 1) avail
        (scanFree used (used.length + 1) (court + 1)) (nextId + 1) fr.2 db'
      (next.1, m :: next.2)
    | _ => (db, [])

/-- `generateUpcomingMatches` from index.ts lines 44-81.  `swapD` is the oracle
for `Math.random() < 0.2`; `nextMatchId` supplies fresh match row ids. -/
def generateUpcomingMatches (swapD : Nat → Bool) (nextMatchId : Nat)
    (db : DB) (sessionId : Nat) : Except ApiError (DB × List Match) :=
  match db.sessions.find? (fun s => s.id == sessionId) with
  | none => .error .sessionNotFound
  | some session =>
    let availableCourts := session.courts - inUseOf db sessionId
    if availableCourts = 0 then .ok (db, [])
    else
      let players := matchingOrder db sessionId
      let used := usedCourts db sessionId
      .ok (genLoop swapD sessionId used 0 availableCourts
        (scanFree used (used.length + 1) 1) nextMatchId players db)

/-- The `POST /api/session/:sessionId/queue/join` handler (index.ts lines 123-135):
reject nonexistent or inactive sessions, compute the next position, then upsert
on the (sessionId, userId) unique key with an empty update. -/
def joinQueue (db : DB) (sessionId userId now : Nat) :
    Except ApiError (DB × WaitingQueueEntry) :=
  match db.sessions.find? (fun s => s.id == sessionId) with
  | none => .error .invalidSession
  | some session =>
    if !session.isActive then .error .invalidSession
    else
      let currentMax := (db.queue.filter (fun e => e.sessionId == sessionId)).foldl
        (fun acc e => max acc e.position) 0
      let position := currentMax + 1
      match db.queue.find? (fun e => e.sessionId == sessionId && e.userId == userId) with
      | some e => .ok (db, e)
      | none =>
        let e : WaitingQueueEntry :=
          { sessionId := sessionId, userId := userId, position := position, joinedAt := now }
        .ok ({ db with queue := db.queue ++ [e] }, e)

/-- The `POST /api/match/:matchId/start` handler (index.ts lines 159-163):
an unconditional update to ONGOING with a fresh start timestamp. -/
def startMatch (db : DB) (matchId now : Nat) : Except ApiError (DB × Match) :=
  match db.matches.find? (fun m => m.id == matchId) with
  | none => .error .matchNotFound
  | some m =>
    let m' := { m with status := MatchStatus.ONGOING, startedAt := some now }
    .ok ({ db with «matches» := db.matches.map (fun x => if x.id == matchId then m' else x) }, m')

/-- The `POST /api/match/:matchId/finish` handler (index.ts lines 165-204).
The zod schema `z.number().min(1).max(2)` admits every number in the closed
interval.  `exp1` and `exp2` mirror lines 179-180; the update calls on lines
181-182 pass the opponent average as the `expected` argument exactly as the
source does.  The match-row update on line 200 writes `winnerTeam` to an
INTEGER column: for a non-integer value (den different from 1) the Prisma
client throws there, after the rating transaction and the history rows have
been committed, so those partial effects stand and neither the match row nor
the cascade happens.  The trailing `generateUpcomingMatches` call is the
cascade of line 202. -/
def finishMatch (tenPow : Rat → Rat) (swapD : Nat → Bool) (nextMatchId : Nat)
    (db : DB) (matchId : Nat) (winnerTeam : Rat) (now : Nat) :
    Except ApiError (DB × Match) :=
  if ¬(1 ≤ winnerTeam ∧ winnerTeam ≤ 2) then .error .validationError
  else
    match db.matches.find? (fun m => m.id == matchId) with
    | none => .error .matchNotFound
    | some m =>
      match findUser db m.p1Id, findUser db m.p2Id, findUser db m.p3Id, findUser db m.p4Id with
      | some p1, some p2, some p3, some p4 =>
        let team1Avg := averageTeamRating p1.rating p2.rating
        let team2Avg := averageTeamRating p3.rating p4.rating
        let score1 : Rat := if winnerTeam == 1 then 1 else 0
        let score2 : Rat := if winnerTeam == 2 then 1 else 0
        let exp1 := expectedScore tenPow team1Avg team2Avg
        let exp2 := expectedScore tenPow team2Avg team1Avg
        let newTeam1 := eloUpdate team1Avg team2Avg score1 32
        let newTeam2 := eloUpdate team2Avg team1Avg score2 32
        let delta1 := newTeam1 - team1Avg
        let delta2 := newTeam2 - team2Avg
        let users' :=
          setRating (setRating (setRating (setRating db.users
            m.p1Id (p1.rating + delta1 / 2))
            m.p2Id (p2.rating + delta1 / 2))
            m.p3Id (p3.rating + delta2 / 2))
            m.p4Id (p4.rating + delta2 / 2)
        let hist : List RatingHistory :=
          [ { userId := m.p1Id, change := delta1 / 2, rating := p1.rating + delta1 / 2, matchId := matchId },
            { userId := m.p2Id, change := delta1 / 2, rating := p2.rating + delta1 / 2, matchId := matchId },
            { userId := m.p3Id, change := delta2 / 2, rating := p3.rating + delta2 / 2, matchId := matchId },
            { userId := m.p4Id, change := delta2 / 2, rating := p4.rating + delta2 / 2, matchId := matchId } ]
        if winnerTeam.den = 1 then
          let m' := { m with status := MatchStatus.FINISHED,
                             winnerTeam := some winnerTeam.num, endedAt := some now }
          let db' : DB :=
            { db with users := users',
                      history := db.history ++ hist,
                      «matches» := db.matches.map (fun x => if x.id == matchId then m' else x) }
          (generateUpcomingMatches swapD nextMatchId db' m.sessionId).map (fun p => (p.1, m'))
        else
          .error (.intWriteRejected { db with users := users', history := db.history ++ hist })
      | _, _, _, _ => .error .matchNotFound

/-- The oracle on which the probabilistic swap never fires. -/
def swapD0 : Nat → Bool := fun _ => false

/-- A stand-in for `Math.pow(10, ·)`; it agrees with the real function at
exponent 0 (`tenPow0 0 = 1`), the only point the concrete scenarios use. -/
def tenPow0 : Rat → Rat := fun _ => 1

/-- The database component of a successful result. -/
def okDB (fallback : DB) : Except ApiError (DB × Match) → DB
  | .ok p => p.1
  | .error _ => fallback

/-- The returned match row of a successful result. -/
def okMatch (fallback : Match) : Except ApiError (DB × Match) → Match
  | .ok p => p.2
  | .error _ => fallback

/-- The team update rule exactly as the spec states it: new team rating
`teamAvg + K*(score - expected)` with `K = 32` and `expected` the logistic
expectation against the opponent average; `tenPow` stands for `10 ^ ·`. -/
def specNewTeamRating (tenPow : Rat → Rat) (own opp score : Rat) : Rat :=
  own + 32 * (score - expectedScore tenPow own opp)

/-- No SCHEDULED or ONGOING match of a session may share a court with `m`. -/
def clashFree (m : Match) (l : List Match) : Bool :=
  l.all (fun m2 =>
    !(m.sessionId == m2.sessionId && nonFinished m && nonFinished m2 && m.court == m2.court))

/-- The court-uniqueness invariant of the spec, as a decidable check over the
match table: no two SCHEDULED/ONGOING matches of one session share a court. -/
def courtsUniqueB : List Match → Bool
  | [] => true
  | m :: l => clashFree m l && courtsUniqueB l

/-- Four equally rated players in one scheduled match. -/
def u1 : User := { id := 1, rating := 1200 }

def u2 : User := { id := 2, rating := 1200 }

def u3 : User := { id := 3, rating := 1200 }

def u4 : User := { id := 4, rating := 1200 }

/-- An active session with five courts. -/
def session1 : Session := { id := 100, courts := 5, isActive := true }

/-- A scheduled match between teams of average rating 1200. -/
def match1 : Match :=
  { id := 10, sessionId := 100, court := 1, status := MatchStatus.SCHEDULED,
    p1Id := 1, p2Id := 2, p3Id := 3, p4Id := 4,
    winnerTeam := none, startedAt := none, endedAt := none }

/-- Concrete state: four 1200-rated players on one scheduled match. -/
def db0 : DB :=
  { users := [u1, u2, u3, u4], sessions := [session1],
    «matches» := [match1], queue := [], history := [] }

/-- The same match already finished. -/
def match1F : Match :=
  { match1 with status := MatchStatus.FINISHED, winnerTeam := some 1, endedAt := some 3 }

/-- Concrete state whose only match is already FINISHED. -/
def dbF : DB :=
  { db0 with «matches» := [match1F] }

/-- A finished match on court 1. -/
def matchA : Match :=
  { id := 1, sessionId := 100, court := 1, status := MatchStatus.FINISHED,
    p1Id := 1, p2Id := 2, p3Id := 3, p4Id := 4,
    winnerTeam := some 1, startedAt := some 1, endedAt := some 2 }

/-- A later scheduled match reusing court 1, as the scheduler is designed
to do once the court is free. -/
def matchB : Match :=
  { id := 2, sessionId := 100, court := 1, status := MatchStatus.SCHEDULED,
    p1Id := 5, p2Id := 6, p3Id := 7, p4Id := 8,
    winnerTeam := none, startedAt := none, endedAt := none }

/-- Concrete state in which court 1 was legitimately reused after a finish. -/
def dbC5 : DB :=
  { users := [], sessions := [session1], «matches» := [matchA, matchB],
    queue := [], history := [] }

/-- C1: the code does not apply `teamAvg + K*(score - expected)`.  On four
1200-rated players with winnerTeam 1 the spec formula puts each winner at
1208 (delta 16 split evenly), but `finishMatch` passes the opponent team
average as the `expected` argument of `eloUpdate` (the computed `exp1`/`exp2`
are never used), so player 1 ends at `1200 + 32*(1 - 1200)/2 = -17984`. -/
theorem C1_finish_uses_opponent_average_as_expected :
    (finishMatch tenPow0 swapD0 11 db0 10 1 5).isOk = true ∧
    ratingOf (okDB db0 (finishMatch tenPow0 swapD0 11 db0 10 1 5)) 1 = -17984 ∧
    averageTeamRating u1.rating u2.rating = 1200 ∧
    u1.rating + (specNewTeamRating tenPow0 1200 1200 1 - 1200) / 2 = 1208 ∧
    tenPow0 0 = 1 ∧
    ((-17984 : Rat) = 1208 → False) :=
  ⟨by
    simp +decide [finishMatch, generateUpcomingMatches, genLoop, matchingOrder, waitingPlayers,
      queueOrdered, usedCourts, inUseOf, nonFinished, memB, scanFree, applySwap, findUser,
      setRating, averageTeamRating, eloUpdate, expectedScore, Except.map, okDB, db0, u1, u2, u3, u4,
      session1, match1, tenPow0, swapD0, List.insertionSort, List.orderedInsert],
   by
    simp +decide [finishMatch, generateUpcomingMatches, genLoop, matchingOrder, waitingPlayers,
      queueOrdered, usedCourts, inUseOf, nonFinished, memB, scanFree, applySwap, findUser,
      ratingOf, setRating, averageTeamRating, eloUpdate, expectedScore, Except.map, okDB, db0, u1, u2, u3,
      u4, session1, match1, tenPow0, swapD0, List.insertionSort, List.orderedInsert]
    norm_num,
   by norm_num [averageTeamRating, u1, u2],
   by norm_num [specNewTeamRating, expectedScore, tenPow0, u1],
   rfl,
   by norm_num⟩

/-- C2: the four applied rating deltas of a completed match do not sum to
zero.  On four 1200-rated players with winnerTeam 1 the recorded changes are
two of `-19184` and two of `-19200`, summing to `-76768`. -/
theorem C2_deltas_do_not_sum_to_zero :
    ((okDB db0 (finishMatch tenPow0 swapD0 11 db0 10 1 5)).history.map
        RatingHistory.change).sum = -76768 ∧
    (okDB db0 (finishMatch tenPow0 swapD0 11 db0 10 1 5)).history.length = 4 ∧
    ((-76768 : Rat) = 0 → False) :=
  ⟨by
    simp +decide [finishMatch, generateUpcomingMatches, genLoop, matchingOrder, waitingPlayers,
      queueOrdered, usedCourts, inUseOf, nonFinished, memB, scanFree, applySwap, findUser,
      setRating, averageTeamRating, eloUpdate, expectedScore, Except.map, okDB, db0, u1, u2, u3, u4,
      session1, match1, tenPow0, swapD0, List.insertionSort, List.orderedInsert]
    norm_num,
   by
    simp +decide [finishMatch, generateUpcomingMatches, genLoop, matchingOrder, waitingPlayers,
      queueOrdered, usedCourts, inUseOf, nonFinished, memB, scanFree, applySwap, findUser,
      setRating, averageTeamRating, eloUpdate, expectedScore, Except.map, okDB, db0, u1, u2, u3, u4,
      session1, match1, tenPow0, swapD0, List.insertionSort, List.orderedInsert],
   by norm_num⟩

/-- C3: `finishMatch` on a match whose status is already FINISHED does not
fail: it succeeds, changes player ratings (player 1 moves from 1200 to
-17984), appends four RatingHistory rows and rewrites the match row. -/
theorem C3_finish_on_finished_match_reapplies_ratings :
    match1F.status = MatchStatus.FINISHED ∧
    (finishMatch tenPow0 swapD0 11 dbF 10 1 5).isOk = true ∧
    ratingOf dbF 1 = 1200 ∧
    ratingOf (okDB dbF (finishMatch tenPow0 swapD0 11 dbF 10 1 5)) 1 = -17984 ∧
    (okDB dbF (finishMatch tenPow0 swapD0 11 dbF 10 1 5)).history.length = 4 ∧
    (okMatch match1 (finishMatch tenPow0 swapD0 11 dbF 10 1 5)).endedAt = some 5 :=
  ⟨rfl,
   by
    simp +decide [finishMatch, generateUpcomingMatches, genLoop, matchingOrder, waitingPlayers,
      queueOrdered, usedCourts, inUseOf, nonFinished, memB, scanFree, applySwap, findUser,
      setRating, averageTeamRating, eloUpdate, expectedScore, Except.map, okDB, dbF, db0, match1F, u1, u2,
      u3, u4, session1, match1, tenPow0, swapD0, List.insertionSort, List.orderedInsert],
   by norm_num [ratingOf, findUser, dbF, db0, u1],
   by
    simp +decide [finishMatch, generateUpcomingMatches, genLoop, matchingOrder, waitingPlayers,
      queueOrdered, usedCourts, inUseOf, nonFinished, memB, scanFree, applySwap, findUser,
      ratingOf, setRating, averageTeamRating, eloUpdate, expectedScore, Except.map, okDB, dbF, db0, match1F,
      u1, u2, u3, u4, session1, match1, tenPow0, swapD0, List.insertionSort, List.orderedInsert]
    norm_num,
   by
    simp +decide [finishMatch, generateUpcomingMatches, genLoop, matchingOrder, waitingPlayers,
      queueOrdered, usedCourts, inUseOf, nonFinished, memB, scanFree, applySwap, findUser,
      setRating, averageTeamRating, eloUpdate, expectedScore, Except.map, okDB, dbF, db0, match1F, u1, u2,
      u3, u4, session1, match1, tenPow0, swapD0, List.insertionSort, List.orderedInsert],
   by
    simp +decide [finishMatch, generateUpcomingMatches, genLoop, matchingOrder, waitingPlayers,
      queueOrdered, usedCourts, inUseOf, nonFinished, memB, scanFree, applySwap, findUser,
      setRating, averageTeamRating, eloUpdate, expectedScore, Except.map, okMatch, dbF, db0, match1F, u1,
      u2, u3, u4, session1, match1, tenPow0, swapD0, List.insertionSort, List.orderedInsert]⟩

/-- C4: `startMatch` on a match whose status is FINISHED does not fail: it
sets the status to ONGOING and stamps a fresh start time. -/
theorem C4_start_on_finished_match_succeeds :
    match1F.status = MatchStatus.FINISHED ∧
    (startMatch dbF 10 7).isOk = true ∧
    (okMatch match1F (startMatch dbF 10 7)).status = MatchStatus.ONGOING ∧
    (okMatch match1F (startMatch dbF 10 7)).startedAt = some 7 := by
  decide

/-- C5: the court-uniqueness invariant is not preserved by every operation:
starting from a state where a FINISHED match and a SCHEDULED match
legitimately share court 1, `startMatch` on the finished match yields two
non-finished matches of one session on the same court. -/
theorem C5_start_breaks_court_uniqueness :
    courtsUniqueB dbC5.matches = true ∧
    (startMatch dbC5 1 7).isOk = true ∧
    courtsUniqueB (okDB dbC5 (startMatch dbC5 1 7)).matches = false := by
  decide

/-- The database state the late Prisma throw leaves behind when winnerTeam
3/2 is finished on `db0`: both teams scored 0, so every player lost 19200,
four history rows were appended, and the match row was never touched. -/
def dbC9partial : DB :=
  { db0 with
    users := [{ id := 1, rating := -18000 }, { id := 2, rating := -18000 },
              { id := 3, rating := -18000 }, { id := 4, rating := -18000 }],
    history := [{ userId := 1, change := -19200, rating := -18000, matchId := 10 },
                { userId := 2, change := -19200, rating := -18000, matchId := 10 },
                { userId := 3, change := -19200, rating := -18000, matchId := 10 },
                { userId := 4, change := -19200, rating := -18000, matchId := 10 }] }

/-- C9: winnerTeam 3/2 lies outside the set with elements 1 and 2, yet the
zod interval check accepts it; the call then fails only at the write of 3/2
to the INTEGER winnerTeam column, after the rating updates and four history
rows have been committed, with the match row still SCHEDULED - not the
upfront ValidationError with unchanged state the claim requires.  An integer
winnerTeam such as 2 passes validation and finishes normally. -/
theorem C9_noninteger_winner_partial_application :
    (((3 : Rat) / 2 = 1 ∨ (3 : Rat) / 2 = 2) → False) ∧
    finishMatch tenPow0 swapD0 11 db0 10 ((3 : Rat) / 2) 5
      = .error (.intWriteRejected dbC9partial) ∧
    ratingOf db0 1 = 1200 ∧
    ratingOf dbC9partial 1 = -18000 ∧
    dbC9partial.history.length = 4 ∧
    dbC9partial.matches = [match1] ∧
    match1.status = MatchStatus.SCHEDULED ∧
    (finishMatch tenPow0 swapD0 11 db0 10 2 5).isOk = true :=
  ⟨by norm_num,
   by
    norm_num [finishMatch, generateUpcomingMatches, genLoop, matchingOrder, waitingPlayers,
      queueOrdered, usedCourts, inUseOf, nonFinished, memB, scanFree, applySwap, findUser,
      setRating, averageTeamRating, eloUpdate, expectedScore, Except.map, dbC9partial, db0,
      u1, u2, u3, u4, session1, match1, tenPow0, swapD0, List.insertionSort, List.orderedInsert],
   by norm_num [ratingOf, findUser, db0, u1],
   by norm_num [ratingOf, findUser, dbC9partial, db0],
   rfl,
   rfl,
   rfl,
   by
    simp +decide [finishMatch, generateUpcomingMatches, genLoop, matchingOrder, waitingPlayers,
      queueOrdered, usedCourts, inUseOf, nonFinished, memB, scanFree, applySwap, findUser,
      setRating, averageTeamRating, eloUpdate, expectedScore, Except.map, Except.isOk,
      Except.toBool, db0, u1, u2, u3, u4, session1, match1, tenPow0, swapD0,
      List.insertionSort, List.orderedInsert]⟩

/-- An `Except.map` result is an error exactly when its argument is. -/
theorem except_map_error_iff {ε α β : Type} (f : α → β) (g : Except ε α) (e : ε) :
    g.map f = .error e ↔ g = .error e := by
  cases g <;> simp [Except.map]

/-- The scheduler can only fail by not finding the session. -/
theorem generate_ne_validationError (swapD : Nat → Bool) (nextId : Nat) (db : DB)
    (sessionId : Nat) :
    generateUpcomingMatches swapD nextId db sessionId ≠ .error .validationError := by
  unfold generateUpcomingMatches
  cases h : db.sessions.find? (fun s => s.id == sessionId) with
  | none => simp
  | some s =>
    dsimp only
    split <;> simp

/-- The loop body never runs when fewer than four players remain. -/
theorem genLoop_small (swapD : Nat → Bool) (sid : Nat) (used : List Nat)
    (gi avail court nextId : Nat) (ps : List User) (db : DB) (h : ps.length < 4) :
    genLoop swapD sid used gi avail court nextId ps db = (db, []) := by
  cases avail with
  | zero => rfl
  | succ n =>
    unfold genLoop
    rcases ps with _ | ⟨a, _ | ⟨b, _ | ⟨c, _ | ⟨d, rest⟩⟩⟩⟩
    · rfl
    · rfl
    · rfl
    · rfl
    · simp at h
      omega

/-- C7: on an existing session, zero available courts or fewer than four
waiting players make `generateUpcomingMatches` succeed with an empty result
and leave the whole database, in particular the queue, unchanged. -/
theorem C7_generate_empty_when_no_capacity_or_few_players (db : DB) (sessionId : Nat)
    (swapD : Nat → Bool) (nextId : Nat)
    (hs : (db.sessions.find? (fun s => s.id == sessionId)).isSome = true)
    (h : availOf db sessionId = 0 ∨ (waitingPlayers db sessionId).length < 4) :
    generateUpcomingMatches swapD nextId db sessionId = .ok (db, []) := by
  obtain ⟨s, hs⟩ := Option.isSome_iff_exists.mp hs
  have havail : availOf db sessionId = s.courts - inUseOf db sessionId := by
    unfold availOf
    rw [hs]
    rfl
  unfold generateUpcomingMatches
  rw [hs]
  dsimp only
  rcases h with h | h
  · rw [havail] at h
    rw [if_pos h]
  · by_cases h0 : s.courts - inUseOf db sessionId = 0
    · rw [if_pos h0]
    · rw [if_neg h0]
      have hlen : (matchingOrder db sessionId).length < 4 := by
        rw [matchingOrder, (List.perm_insertionSort ratingOrder _).length_eq]
        exact h
      rw [genLoop_small _ _ _ _ _ _ _ _ _ hlen]

/-- C8: joining the queue of an active session twice succeeds both times,
the second call returns the first call's entry with the database unchanged,
and exactly one entry for the (session, player) pair remains. -/
theorem C8_joinQueue_idempotent (db : DB) (sid uid t1 t2 : Nat) (s : Session)
    (hs : db.sessions.find? (fun x => x.id == sid) = some s)
    (ha : s.isActive = true)
    (huniq : (db.queue.filter (fun e => e.sessionId == sid && e.userId == uid)).length ≤ 1) :
    ∃ db1 e1, joinQueue db sid uid t1 = .ok (db1, e1) ∧
      joinQueue db1 sid uid t2 = .ok (db1, e1) ∧
      (db1.queue.filter (fun e => e.sessionId == sid && e.userId == uid)).length = 1 := by
  cases hfind : db.queue.find? (fun e => e.sessionId == sid && e.userId == uid) with
  | some e =>
    refine ⟨db, e, ?_, ?_, ?_⟩
    · unfold joinQueue
      rw [hs]
      simp only [ha, Bool.not_true, Bool.false_eq_true, if_false, hfind]
    · unfold joinQueue
      rw [hs]
      simp only [ha, Bool.not_true, Bool.false_eq_true, if_false, hfind]
    · have hpe : (e.sessionId == sid && e.userId == uid) = true := by
        have h2 := List.find?_some hfind
        simpa using h2
      have hmem : e ∈ db.queue.filter (fun e => e.sessionId == sid && e.userId == uid) :=
        List.mem_filter.mpr ⟨List.mem_of_find?_eq_some hfind, hpe⟩
      have h1 : 0 < (db.queue.filter (fun e => e.sessionId == sid && e.userId == uid)).length :=
        List.length_pos.mpr (fun hnil => by rw [hnil] at hmem; exact absurd hmem (List.not_mem_nil e))
      omega
  | none =>
    refine ⟨{ db with queue := db.queue ++
        [{ sessionId := sid, userId := uid,
           position := (db.queue.filter (fun e => e.sessionId == sid)).foldl
             (fun acc e => max acc e.position) 0 + 1, joinedAt := t1 }] },
      { sessionId := sid, userId := uid,
        position := (db.queue.filter (fun e => e.sessionId == sid)).foldl
          (fun acc e => max acc e.position) 0 + 1, joinedAt := t1 }, ?_, ?_, ?_⟩
    · unfold joinQueue
      rw [hs]
      simp only [ha, Bool.not_true, Bool.false_eq_true, if_false, hfind]
    · unfold joinQueue
      dsimp only
      rw [hs]
      simp only [ha, Bool.not_true, Bool.false_eq_true, if_false]
      rw [List.find?_append, hfind, Option.none_or]
      simp
    · dsimp only
      rw [List.filter_append]
      rw [List.filter_eq_nil.mpr (fun a hmem => by
        have := List.find?_eq_none.mp hfind a hmem
        simpa using this)]
      simp


/-- A list of length at least four starts with four elements. -/
theorem exists_four_cons {α : Type} : ∀ (l : List α), 4 ≤ l.length →
    ∃ a b c d rest, l = a :: b :: c :: d :: rest
  | a :: b :: c :: d :: rest, _ => ⟨a, b, c, d, rest, rfl⟩
  | [], h => absurd h (by simp)
  | [_], h => absurd h (by simp)
  | [_, _], h => absurd h (by simp)
  | [_, _, _], h => absurd h (by simp)

/-- C10: `generateUpcomingMatches` never reads the active flag: with the
session row present it succeeds even when the session is inactive, and with
four waiting players and a free court it still creates a match; only a
nonexistent session id is rejected; `joinQueue` is the operation that checks
the flag and rejects the inactive session. -/
theorem C10_generate_ignores_active_flag (db : DB) (sessionId uid now : Nat)
    (swapD : Nat → Bool) (nextId : Nat) (s : Session)
    (hs : db.sessions.find? (fun x => x.id == sessionId) = some s)
    (hin : s.isActive = false) :
    (generateUpcomingMatches swapD nextId db sessionId).isOk = true ∧
    joinQueue db sessionId uid now = .error .invalidSession ∧
    (∀ db2 : DB, ∀ sid2 : Nat, db2.sessions.find? (fun x => x.id == sid2) = none →
      generateUpcomingMatches swapD nextId db2 sid2 = .error .sessionNotFound) ∧
    (4 ≤ (matchingOrder db sessionId).length → 1 ≤ s.courts - inUseOf db sessionId →
      ∀ db' created, generateUpcomingMatches swapD nextId db sessionId = .ok (db', created) →
        created ≠ []) := by
  refine ⟨?_, ?_, ?_, ?_⟩
  · unfold generateUpcomingMatches
    rw [hs]
    dsimp only
    split <;> rfl
  · unfold joinQueue
    rw [hs]
    simp [hin]
  · intro db2 sid2 hnone
    unfold generateUpcomingMatches
    rw [hnone]
  · intro h4 h1 db' created hgen
    obtain ⟨a, b, c, d, rest, hps⟩ := exists_four_cons _ h4
    unfold generateUpcomingMatches at hgen
    rw [hs] at hgen
    dsimp only at hgen
    rw [if_neg (by omega)] at hgen
    obtain ⟨k, hA⟩ : ∃ k, s.courts - inUseOf db sessionId = k + 1 :=
      ⟨s.courts - inUseOf db sessionId - 1, by omega⟩
    rw [hA, hps] at hgen
    unfold genLoop at hgen
    dsimp only at hgen
    intro hnil
    rw [hnil] at hgen
    simp at hgen

/-- The grouping the spec describes, stated independently of the database
loop: walk the matching order in consecutive groups of four, the group's 4th
member possibly swapped with the 5th, until the court budget runs out or
fewer than four players remain. -/
def formGroups (swapD : Nat → Bool) : Nat → Nat → List User → List (User × User × User × User)
  | _, 0, _ => []
  | gi, avail + 1, ps =>
    match ps with
    | a :: b :: c :: d :: rest =>
      let fr := applySwap (swapD gi) d rest
      (a, b, c, fr.1) :: formGroups swapD (gi + 1) avail fr.2
    | _ => []

/-- The user ids of the grouped players, in group order. -/
def groupIds : List (User × User × User × User) → List Nat
  | [] => []
  | g :: gs => g.1.id :: g.2.1.id :: g.2.2.1.id :: g.2.2.2.id :: groupIds gs

/-- Filtering by membership in the empty id list keeps every entry. -/
theorem filter_memB_nil (q : List WaitingQueueEntry) (sid : Nat) :
    q.filter (fun e => !(e.sessionId == sid && memB e.userId [])) = q := by
  induction q with
  | nil => rfl
  | cons e q ih => simp [List.filter_cons, memB, ih]

/-- Two successive deletions merge into deletion by the concatenated id list. -/
theorem merge_pred (s x1 x2 x3 x4 m2 : Bool) :
    ((!(s && m2)) && (!(s && (x1 || (x2 || (x3 || (x4 || false))))))) =
    (!(s && (x1 || (x2 || (x3 || (x4 || m2)))))) := by
  cases s <;> cases x1 <;> cases x2 <;> cases x3 <;> cases x4 <;> cases m2 <;> rfl

/-- Structural description of the creation loop: the created matches carry
exactly the groups of `formGroups`, are all SCHEDULED rows of the session, and
the final queue is the original queue minus the entries of the grouped
players; users, sessions and history are untouched. -/
theorem genLoop_spec (swapD : Nat → Bool) (sid : Nat) (used : List Nat) :
    ∀ (avail gi court nextId : Nat) (ps : List User) (db : DB),
      ((genLoop swapD sid used gi avail court nextId ps db).2.map
          (fun m => (m.p1Id, m.p2Id, m.p3Id, m.p4Id))
        = (formGroups swapD gi avail ps).map
          (fun g => (g.1.id, g.2.1.id, g.2.2.1.id, g.2.2.2.id))) ∧
      ((genLoop swapD sid used gi avail court nextId ps db).2.all
          (fun m => m.status == MatchStatus.SCHEDULED && m.sessionId == sid) = true) ∧
      ((genLoop swapD sid used gi avail court nextId ps db).1.queue
        = db.queue.filter (fun e =>
            !(e.sessionId == sid && memB e.userId (groupIds (formGroups swapD gi avail ps))))) ∧
      ((genLoop swapD sid used gi avail court nextId ps db).1.users = db.users) ∧
      ((genLoop swapD sid used gi avail court nextId ps db).1.sessions = db.sessions) ∧
      ((genLoop swapD sid used gi avail court nextId ps db).1.history = db.history) := by
  intro avail
  induction avail with
  | zero =>
    intro gi court nextId ps db
    exact ⟨rfl, rfl, (filter_memB_nil _ _).symm, rfl, rfl, rfl⟩
  | succ n ih =>
    intro gi court nextId ps db
    rcases ps with _ | ⟨a, _ | ⟨b, _ | ⟨c, _ | ⟨d, rest⟩⟩⟩⟩
    · exact ⟨rfl, rfl, (filter_memB_nil _ _).symm, rfl, rfl, rfl⟩
    · exact ⟨rfl, rfl, (filter_memB_nil _ _).symm, rfl, rfl, rfl⟩
    · exact ⟨rfl, rfl, (filter_memB_nil _ _).symm, rfl, rfl, rfl⟩
    · exact ⟨rfl, rfl, (filter_memB_nil _ _).symm, rfl, rfl, rfl⟩
    · refine ⟨?_, ?_, ?_, ?_, ?_, ?_⟩
      · simp only [genLoop, formGroups, List.map_cons]
        rw [(ih _ _ _ _ _).1]
      · simp only [genLoop, List.all_cons]
        rw [(ih _ _ _ _ _).2.1]
        simp
      · simp only [genLoop, formGroups, groupIds]
        rw [(ih _ _ _ _ _).2.2.1]
        dsimp only
        rw [List.filter_filter]
        refine List.filter_congr (fun e _ => ?_)
        simp only [memB]
        exact merge_pred _ _ _ _ _ _
      · simp only [genLoop]
        rw [(ih _ _ _ _ _).2.2.2.1]
      · simp only [genLoop]
        rw [(ih _ _ _ _ _).2.2.2.2.1]
      · simp only [genLoop]
        rw [(ih _ _ _ _ _).2.2.2.2.2]

/-- C6: a successful generation re-sorts the waiting players by rating
ascending (the matching order is an ascending-rating permutation of the
waiting list) and takes them in consecutive groups of four with the optional
swap of a group's 4th player with the 5th; each created match is a SCHEDULED
row of the session whose slots p1..p4 are exactly the group in order (team 1
the first two, team 2 the last two), and the queue entries removed are
exactly those of the grouped players. -/
theorem C6_generate_grouping (db : DB) (sessionId : Nat) (swapD : Nat → Bool)
    (nextId : Nat) (db' : DB) (created : List Match)
    (h : generateUpcomingMatches swapD nextId db sessionId = .ok (db', created)) :
    (created.map (fun m => (m.p1Id, m.p2Id, m.p3Id, m.p4Id))
      = (formGroups swapD 0 (availOf db sessionId) (matchingOrder db sessionId)).map
          (fun g => (g.1.id, g.2.1.id, g.2.2.1.id, g.2.2.2.id))) ∧
    (created.all (fun m => m.status == MatchStatus.SCHEDULED && m.sessionId == sessionId)
      = true) ∧
    (db'.queue = db.queue.filter (fun e =>
        !(e.sessionId == sessionId && memB e.userId
          (groupIds (formGroups swapD 0 (availOf db sessionId) (matchingOrder db sessionId)))))) ∧
    List.Sorted ratingOrder (matchingOrder db sessionId) ∧
    (matchingOrder db sessionId).Perm (waitingPlayers db sessionId) := by
  have hsorted : List.Sorted ratingOrder (matchingOrder db sessionId) :=
    List.sorted_insertionSort ratingOrder _
  have hperm : (matchingOrder db sessionId).Perm (waitingPlayers db sessionId) :=
    List.perm_insertionSort ratingOrder _
  cases hfind : db.sessions.find? (fun s => s.id == sessionId) with
  | none =>
    unfold generateUpcomingMatches at h
    rw [hfind] at h
    exact absurd h (by simp)
  | some s =>
    have havail : availOf db sessionId = s.courts - inUseOf db sessionId := by
      unfold availOf
      rw [hfind]
      rfl
    unfold generateUpcomingMatches at h
    rw [hfind] at h
    dsimp only at h
    by_cases h0 : s.courts - inUseOf db sessionId = 0
    · rw [if_pos h0] at h
      injection h with h'
      injection h' with h1 h2
      subst h1
      subst h2
      rw [havail, h0]
      refine ⟨rfl, rfl, (filter_memB_nil _ _).symm, hsorted, hperm⟩
    · rw [if_neg h0] at h
      injection h with h'
      obtain ⟨g1, g2, g3, g4, g5, g6⟩ :=
        genLoop_spec swapD sessionId (usedCourts db sessionId)
          (s.courts - inUseOf db sessionId) 0
          (scanFree (usedCourts db sessionId) ((usedCourts db sessionId).length + 1) 1)
          nextId (matchingOrder db sessionId) db
      rw [h'] at g1 g2 g3
      rw [havail]
      exact ⟨g1, g2, g3, hsorted, hperm⟩

/-- Queue entries for the four players, in arrival order. -/
def qe1 : WaitingQueueEntry := { sessionId := 100, userId := 1, position := 1, joinedAt := 1 }

def qe2 : WaitingQueueEntry := { sessionId := 100, userId := 2, position := 2, joinedAt := 2 }

def qe3 : WaitingQueueEntry := { sessionId := 100, userId := 3, position := 3, joinedAt := 3 }

def qe4 : WaitingQueueEntry := { sessionId := 100, userId := 4, position := 4, joinedAt := 4 }

/-- Concrete state: four queued players, no matches yet. -/
def dbW : DB :=
  { users := [u1, u2, u3, u4], sessions := [session1], «matches» := [],
    queue := [qe1, qe2, qe3, qe4], history := [] }

/-- The match generation creates from `dbW`. -/
def mW : Match :=
  { id := 50, sessionId := 100, court := 1, status := MatchStatus.SCHEDULED,
    p1Id := 1, p2Id := 2, p3Id := 3, p4Id := 4,
    winnerTeam := none, startedAt := none, endedAt := none }

/-- The state after generating from `dbW`: one match, empty queue. -/
def dbWafter : DB := { dbW with «matches» := [mW], queue := [] }

/-- Witness for C6: the decomposition holds on the concrete generation that
turns the four queued players of `dbW` into the single match `mW`. -/
theorem C6_generate_grouping_witness :
    ([mW].map (fun m => (m.p1Id, m.p2Id, m.p3Id, m.p4Id))
      = (formGroups swapD0 0 (availOf dbW 100) (matchingOrder dbW 100)).map
          (fun g => (g.1.id, g.2.1.id, g.2.2.1.id, g.2.2.2.id))) ∧
    ([mW].all (fun m => m.status == MatchStatus.SCHEDULED && m.sessionId == 100) = true) ∧
    (dbWafter.queue = dbW.queue.filter (fun e =>
        !(e.sessionId == 100 && memB e.userId
          (groupIds (formGroups swapD0 0 (availOf dbW 100) (matchingOrder dbW 100)))))) ∧
    List.Sorted ratingOrder (matchingOrder dbW 100) ∧
    (matchingOrder dbW 100).Perm (waitingPlayers dbW 100) :=
  C6_generate_grouping dbW 100 swapD0 50 dbWafter [mW] (by decide)

/-- Concrete state with only three players waiting. -/
def dbW7 : DB := { dbW with queue := [qe1, qe2, qe3] }

/-- Witness for C7: three waiting players make generation a successful no-op. -/
theorem C7_generate_empty_witness :
    generateUpcomingMatches swapD0 50 dbW7 100 = .ok (dbW7, []) :=
  C7_generate_empty_when_no_capacity_or_few_players dbW7 100 swapD0 50 (by decide)
    (Or.inr (by decide))

/-- Concrete state with an empty queue for the join experiment. -/
def dbW8 : DB := { dbW with queue := [] }

/-- Witness for C8: joining twice from the empty queue of the active session
leaves exactly one entry for the pair, the second call changing nothing. -/
theorem C8_joinQueue_idempotent_witness :
    ∃ db1 e1, joinQueue dbW8 100 7 3 = .ok (db1, e1) ∧
      joinQueue db1 100 7 4 = .ok (db1, e1) ∧
      (db1.queue.filter (fun e => e.sessionId == 100 && e.userId == 7)).length = 1 :=
  C8_joinQueue_idempotent dbW8 100 7 3 4 session1 (by decide) rfl (by decide)

/-- An inactive session with three courts. -/
def sessionI : Session := { id := 200, courts := 3, isActive := false }

def qi1 : WaitingQueueEntry := { sessionId := 200, userId := 1, position := 1, joinedAt := 1 }

def qi2 : WaitingQueueEntry := { sessionId := 200, userId := 2, position := 2, joinedAt := 2 }

def qi3 : WaitingQueueEntry := { sessionId := 200, userId := 3, position := 3, joinedAt := 3 }

def qi4 : WaitingQueueEntry := { sessionId := 200, userId := 4, position := 4, joinedAt := 4 }

/-- Concrete state around an inactive session with four queued players. -/
def dbW10 : DB :=
  { users := [u1, u2, u3, u4], sessions := [sessionI], «matches» := [],
    queue := [qi1, qi2, qi3, qi4], history := [] }

/-- Witness for C10: generation succeeds on the inactive session while the
queue join is rejected. -/
theorem C10_generate_ignores_active_flag_witness :
    (generateUpcomingMatches swapD0 60 dbW10 200).isOk = true ∧
    joinQueue dbW10 200 7 9 = .error .invalidSession :=
  ⟨(C10_generate_ignores_active_flag dbW10 200 7 9 swapD0 60 sessionI (by decide) rfl).1,
   (C10_generate_ignores_active_flag dbW10 200 7 9 swapD0 60 sessionI (by decide) rfl).2.1⟩

end Scheduler
